import Mathlib

/-!
Verification of the SampleFlow risk-scoring utility.

This file gives a shallow embedding of the risk-scoring module
(`calculateRiskScore`, its four factor assessors, the narrative
generator and `getRiskLevelColor`) and proves properties about it.

Modelling notes:
* TypeScript `number` values are modelled as `ℚ` (all arithmetic in the
  module is exact: integer scores, weights 3, 2, 2.5, 2.5).
* `Math.round` is modelled by `jsRound q = ⌊q + 1/2⌋` (round half up),
  which agrees with JavaScript on every value the module produces.
* `String.prototype.includes` is modelled by `jsIncludes` (case-sensitive
  substring containment).
* `assessAgeRisk` reads the clock via `new Date().getFullYear()`; the
  embedding makes that read explicit as a `currentYear : ℤ` parameter,
  threaded through `calculateRiskScore`.
-/

namespace SampleFlow

/-- The TS union type of the literals high, medium, low used for factor impact. -/
inductive Impact where
  | high
  | medium
  | low
deriving DecidableEq

/-- The TS union type of the literals high, medium, low used for the overall risk level. -/
inductive RiskLevel where
  | high
  | medium
  | low
deriving DecidableEq

/-- The `RiskFactor` interface of the source module.  The optional
`mitigation?: string` field becomes `Option String`. -/
structure RiskFactor where
  name : String
  weight : ℚ
  score : ℚ
  impact : Impact
  description : String
  mitigation : Option String
deriving DecidableEq

/-- The `RiskAssessmentResult` interface of the source module. -/
structure RiskAssessmentResult where
  totalScore : ℤ
  riskLevel : RiskLevel
  factors : List RiskFactor
  potentialIssues : List String
  mitigationStrategies : List String
deriving DecidableEq

/-- Does `sub` occur as a contiguous run inside `s`? -/
def listHasInfix (sub : List Char) : List Char → Bool
  | [] => sub.isEmpty
  | c :: rest => sub.isPrefixOf (c :: rest) || listHasInfix sub rest

/-- JavaScript `s.includes(sub)`: case-sensitive substring containment. -/
def jsIncludes (s sub : String) : Bool :=
  listHasInfix sub.toList s.toList

/-- JavaScript `Math.round`: round half toward positive infinity. -/
def jsRound (q : ℚ) : ℤ :=
  ⌊q + 1 / 2⌋

/-- The `majorLabels` list of `assessLabelRisk`. -/
def majorLabels : List String :=
  ["Universal", "Sony", "Warner", "EMI", "Columbia", "Atlantic",
   "Interscope", "Capitol", "Def Jam", "RCA", "Republic", "Polydor"]

/-- The source line `const isMajorLabel = majorLabels.some(major => label.includes(major))`. -/
def isMajorLabel (label : String) : Bool :=
  majorLabels.any fun major => jsIncludes label major

/-- Function `assessLabelRisk` from the source module. -/
def assessLabelRisk (label : String) : RiskFactor :=
  { name := "Label Ownership"
    weight := 3
    score := if isMajorLabel label then 80 else 40
    impact := if isMajorLabel label then Impact.high else Impact.medium
    description := if isMajorLabel label then
        "The sample is owned by a major label, which typically have stricter clearance processes and higher fees."
      else
        "The sample is owned by an independent label, which may be more flexible with clearance terms."
    mitigation := some (if isMajorLabel label then
        "Consider budgeting for higher licensing fees or exploring alternative samples."
      else
        "Reach out directly to the label with a personalized approach.") }

/-- Function `assessAgeRisk` from the source module.  The TS function computes
`currentYear` internally via `new Date().getFullYear()`; the embedding
takes that clock value as the explicit parameter `currentYear`.  The
tuple collects the mutable locals `(score, impact, description,
mitigation)` assigned by the if/else chain. -/
def assessAgeRisk (currentYear releaseYear : ℤ) : RiskFactor :=
  let age := currentYear - releaseYear
  let r : ℚ × Impact × String × String :=
    if age ≥ 70 then
      (20, Impact.low,
       "The track may be approaching public domain in some jurisdictions.",
       "Research public domain status in your jurisdiction, as this may simplify clearance.")
    else if age ≥ 50 then
      (30, Impact.low,
       "The track has established clearance precedents and may have more accessible rights holders.",
       "Look for previous clearance examples to establish reasonable terms.")
    else if age ≥ 30 then
      (40, Impact.medium,
       "The track is well-established but still actively protected.",
       "Approach with standard clearance procedures and reasonable offer terms.")
    else if age ≥ 10 then
      (60, Impact.medium,
       "The track is relatively recent and likely actively managed by rights holders.",
       "Prepare a compelling case for your creative use and be ready to negotiate terms.")
    else
      (75, Impact.high,
       "The track is very recent and may have heightened protection from rights holders.",
       "Consider offering higher royalty percentages or creative control to increase chances of approval.")
  { name := "Track Age"
    weight := 2
    score := r.1
    impact := r.2.1
    description := r.2.2.1
    mitigation := some r.2.2.2 }

/-- The `veryPopularArtists` list of `assessPopularityRisk`. -/
def veryPopularArtists : List String :=
  ["Michael Jackson", "The Beatles", "Queen", "Madonna", "Beyoncé",
   "Drake", "Taylor Swift", "Ed Sheeran", "Rihanna", "Adele",
   "James Brown", "Prince", "David Bowie", "Whitney Houston"]

/-- The `popularArtists` list of `assessPopularityRisk`. -/
def popularArtists : List String :=
  ["Coldplay", "Radiohead", "Kendrick Lamar", "Daft Punk", "The Weeknd",
   "Alicia Keys", "Justin Timberlake", "Kanye West", "Lady Gaga"]

/-- Function `assessPopularityRisk` from the source module. -/
def assessPopularityRisk (artist : String) : RiskFactor :=
  let r : ℚ × Impact × String × String :=
    if veryPopularArtists.any fun a => jsIncludes artist a then
      (85, Impact.high,
       "The artist is highly popular with significant commercial value and likely strict sample clearance policies.",
       "Be prepared for higher licensing fees and consider legal representation for negotiations.")
    else if popularArtists.any fun a => jsIncludes artist a then
      (65, Impact.medium,
       "The artist is well-known with established commercial value and standard clearance procedures.",
       "Approach with professional clearance request and reasonable offer terms.")
    else
      (35, Impact.low,
       "The artist is less mainstream, which may simplify the clearance process.",
       "Direct contact with the artist or their management may yield more favorable terms.")
  { name := "Artist Popularity"
    weight := 2.5
    score := r.1
    impact := r.2.1
    description := r.2.2.1
    mitigation := some r.2.2.2 }

/-- The `frequentlySampledTracks` list of `assessPreviousUsageRisk`. -/
def frequentlySampledTracks : List String :=
  ["Funky Drummer", "Amen Break", "Think", "La Di Da Di",
   "Apache", "Impeach the President", "Synthetic Substitution",
   "Change the Beat", "Bring the Noise", "When the Levee Breaks"]

/-- The `moderatelySampledTracks` list of `assessPreviousUsageRisk`. -/
def moderatelySampledTracks : List String :=
  ["The Payback", "Footsteps in the Dark", "Nautilus",
   "Funky President", "More Bounce to the Ounce",
   "Ain\x27t No Sunshine", "Darkest Light"]

/-- Function `assessPreviousUsageRisk` from the source module. -/
def assessPreviousUsageRisk (track : String) : RiskFactor :=
  let r : ℚ × Impact × String × String :=
    if frequentlySampledTracks.any fun t => jsIncludes track t then
      (70, Impact.high,
       "This track has been frequently sampled, which may indicate established clearance procedures but also potential fatigue from rights holders.",
       "Research previous clearance examples to understand typical terms and prepare a unique creative case for your usage.")
    else if moderatelySampledTracks.any fun t => jsIncludes track t then
      (50, Impact.medium,
       "This track has been sampled several times, suggesting clearance is possible but may require negotiation.",
       "Look for precedents in similar genres and prepare a professional clearance request.")
    else
      (30, Impact.low,
       "This track has not been widely sampled, which may indicate fewer precedents but potentially more openness from rights holders.",
       "Emphasize the creative and respectful use of the sample in your clearance request.")
  { name := "Previous Sample Usage"
    weight := 2.5
    score := r.1
    impact := r.2.1
    description := r.2.2.1
    mitigation := some r.2.2.2 }

/-- Function `generatePotentialIssues` from the source module. -/
def generatePotentialIssues (riskLevel : RiskLevel) (factors : List RiskFactor) : List String :=
  let highImpactFactors := factors.filter fun factor => factor.impact = Impact.high
  if riskLevel = RiskLevel.high then
    ["Major label ownership may require higher licensing fees",
     "Popular track with previous clearance challenges",
     "Multiple rights holders may complicate negotiations"] ++
    highImpactFactors.map fun factor =>
      factor.name ++ " presents significant challenges: " ++ factor.description
  else if riskLevel = RiskLevel.medium then
    ["Some negotiation may be required for favorable terms",
     "Rights holder may request creative control over usage",
     "Approval process may take several weeks"] ++
    highImpactFactors.map fun factor =>
      factor.name ++ " presents challenges: " ++ factor.description
  else
    ["Standard clearance process should be straightforward",
     "Reasonable licensing fees expected",
     "Quick turnaround time likely"]

/-- Function `calculateRiskScore` from the source module.  Here `currentYear` models the
clock value `new Date().getFullYear()` read inside `assessAgeRisk`. -/
def calculateRiskScore (currentYear : ℤ) (sourceTrack originalArtist rightsHolder : String)
    (releaseYear : ℤ) (label : String) : RiskAssessmentResult :=
  let labelFactor := assessLabelRisk label
  let ageFactor := assessAgeRisk currentYear releaseYear
  let popularityFactor := assessPopularityRisk originalArtist
  let usageFactor := assessPreviousUsageRisk sourceTrack
  let factors := [labelFactor, ageFactor, popularityFactor, usageFactor]
  let totalWeight := factors.foldl (fun sum factor => sum + factor.weight) 0
  let weightedScore :=
    (factors.foldl (fun sum factor => sum + factor.score * factor.weight) 0) / totalWeight
  let totalScore := jsRound weightedScore
  let riskLevel : RiskLevel :=
    if totalScore ≥ 70 then RiskLevel.high
    else if totalScore ≥ 40 then RiskLevel.medium
    else RiskLevel.low
  let potentialIssues := generatePotentialIssues riskLevel factors
  let mitigationStrategies := factors.filterMap fun factor => factor.mitigation
  { totalScore := totalScore
    riskLevel := riskLevel
    factors := factors
    potentialIssues := potentialIssues
    mitigationStrategies := mitigationStrategies }

/-- The result type of `getRiskLevelColor`. -/
structure RiskLevelColorResult where
  level : String
  color : String
  bg : String
deriving DecidableEq

/-- Function `getRiskLevelColor` from the source module. -/
def getRiskLevelColor (score : ℚ) : RiskLevelColorResult :=
  if score ≥ 70 then { level := "High", color := "text-red-500", bg := "bg-red-100" }
  else if score ≥ 40 then { level := "Medium", color := "text-yellow-500", bg := "bg-yellow-100" }
  else { level := "Low", color := "text-green-500", bg := "bg-green-100" }

/-- Index of the branch of the if/else chain of `assessAgeRisk` selected for a
given age (0 = the `age >= 70` branch, …, 4 = the final else branch).  Used
to express that two ages fall in different brackets. -/
def ageBracket (age : ℤ) : ℕ :=
  if age ≥ 70 then 0
  else if age ≥ 50 then 1
  else if age ≥ 30 then 2
  else if age ≥ 10 then 3
  else 4

/-! ### Helper lemmas about `jsRound` -/

lemma le_jsRound (q : ℚ) (n : ℤ) (h : (n : ℚ) ≤ q + 1 / 2) : n ≤ jsRound q := by
  unfold jsRound
  exact Int.le_floor.mpr h

lemma jsRound_le (q : ℚ) (n : ℤ) (h : q + 1 / 2 < (n : ℚ) + 1) : jsRound q ≤ n := by
  unfold jsRound
  have h2 : ⌊q + 1 / 2⌋ < n + 1 := by
    apply Int.floor_lt.mpr
    push_cast
    linarith
  omega

lemma jsRound_eq (q : ℚ) (n : ℤ) (h₁ : (n : ℚ) ≤ q + 1 / 2) (h₂ : q + 1 / 2 < (n : ℚ) + 1) :
    jsRound q = n :=
  le_antisymm (jsRound_le q n h₂) (le_jsRound q n h₁)

/-! ### Characterizations of the factor assessors -/

lemma assessLabelRisk_weight (label : String) : (assessLabelRisk label).weight = 3 := rfl

lemma assessLabelRisk_score (label : String) :
    (assessLabelRisk label).score = if isMajorLabel label then 80 else 40 := rfl

lemma assessLabelRisk_impact (label : String) :
    (assessLabelRisk label).impact =
      if isMajorLabel label then Impact.high else Impact.medium := rfl

lemma assessLabelRisk_mitigation_isSome (label : String) :
    (assessLabelRisk label).mitigation.isSome = true := rfl

lemma assessAgeRisk_weight (cy ry : ℤ) : (assessAgeRisk cy ry).weight = 2 := rfl

lemma assessAgeRisk_mitigation_isSome (cy ry : ℤ) :
    (assessAgeRisk cy ry).mitigation.isSome = true := rfl

lemma assessAgeRisk_score (cy ry : ℤ) :
    (assessAgeRisk cy ry).score =
      if cy - ry ≥ 70 then 20
      else if cy - ry ≥ 50 then 30
      else if cy - ry ≥ 30 then 40
      else if cy - ry ≥ 10 then 60
      else 75 := by
  simp only [assessAgeRisk]
  split_ifs <;> rfl

lemma assessAgeRisk_impact (cy ry : ℤ) :
    (assessAgeRisk cy ry).impact =
      if cy - ry ≥ 70 then Impact.low
      else if cy - ry ≥ 50 then Impact.low
      else if cy - ry ≥ 30 then Impact.medium
      else if cy - ry ≥ 10 then Impact.medium
      else Impact.high := by
  simp only [assessAgeRisk]
  split_ifs <;> rfl

lemma assessPopularityRisk_weight (artist : String) :
    (assessPopularityRisk artist).weight = 2.5 := rfl

lemma assessPopularityRisk_mitigation_isSome (artist : String) :
    (assessPopularityRisk artist).mitigation.isSome = true := rfl

lemma assessPopularityRisk_score (artist : String) :
    (assessPopularityRisk artist).score =
      if veryPopularArtists.any fun a => jsIncludes artist a then 85
      else if popularArtists.any fun a => jsIncludes artist a then 65
      else 35 := by
  simp only [assessPopularityRisk]
  split_ifs <;> rfl

lemma assessPopularityRisk_impact (artist : String) :
    (assessPopularityRisk artist).impact =
      if veryPopularArtists.any fun a => jsIncludes artist a then Impact.high
      else if popularArtists.any fun a => jsIncludes artist a then Impact.medium
      else Impact.low := by
  simp only [assessPopularityRisk]
  split_ifs <;> rfl

lemma assessPreviousUsageRisk_weight (track : String) :
    (assessPreviousUsageRisk track).weight = 2.5 := rfl

lemma assessPreviousUsageRisk_mitigation_isSome (track : String) :
    (assessPreviousUsageRisk track).mitigation.isSome = true := rfl

lemma assessPreviousUsageRisk_score (track : String) :
    (assessPreviousUsageRisk track).score =
      if frequentlySampledTracks.any fun t => jsIncludes track t then 70
      else if moderatelySampledTracks.any fun t => jsIncludes track t then 50
      else 30 := by
  simp only [assessPreviousUsageRisk]
  split_ifs <;> rfl

lemma assessPreviousUsageRisk_impact (track : String) :
    (assessPreviousUsageRisk track).impact =
      if frequentlySampledTracks.any fun t => jsIncludes track t then Impact.high
      else if moderatelySampledTracks.any fun t => jsIncludes track t then Impact.medium
      else Impact.low := by
  simp only [assessPreviousUsageRisk]
  split_ifs <;> rfl

/-! ### Score bounds for each assessor -/

lemma assessLabelRisk_score_bounds (label : String) :
    40 ≤ (assessLabelRisk label).score ∧ (assessLabelRisk label).score ≤ 80 := by
  rw [assessLabelRisk_score]
  split_ifs <;> norm_num

lemma assessAgeRisk_score_bounds (cy ry : ℤ) :
    20 ≤ (assessAgeRisk cy ry).score ∧ (assessAgeRisk cy ry).score ≤ 75 := by
  rw [assessAgeRisk_score]
  split_ifs <;> norm_num

lemma assessPopularityRisk_score_bounds (artist : String) :
    35 ≤ (assessPopularityRisk artist).score ∧ (assessPopularityRisk artist).score ≤ 85 := by
  rw [assessPopularityRisk_score]
  split_ifs <;> norm_num

lemma assessPreviousUsageRisk_score_bounds (track : String) :
    30 ≤ (assessPreviousUsageRisk track).score ∧ (assessPreviousUsageRisk track).score ≤ 70 := by
  rw [assessPreviousUsageRisk_score]
  split_ifs <;> norm_num

/-! ### High impact forces the top score of each assessor -/

lemma assessLabelRisk_high_score (label : String)
    (h : (assessLabelRisk label).impact = Impact.high) : (assessLabelRisk label).score = 80 := by
  rw [assessLabelRisk_impact] at h
  rw [assessLabelRisk_score]
  split_ifs at h ⊢ <;> simp_all

lemma assessAgeRisk_high_score (cy ry : ℤ)
    (h : (assessAgeRisk cy ry).impact = Impact.high) : (assessAgeRisk cy ry).score = 75 := by
  rw [assessAgeRisk_impact] at h
  rw [assessAgeRisk_score]
  split_ifs at h ⊢ <;> simp_all

lemma assessPopularityRisk_high_score (artist : String)
    (h : (assessPopularityRisk artist).impact = Impact.high) :
    (assessPopularityRisk artist).score = 85 := by
  rw [assessPopularityRisk_impact] at h
  rw [assessPopularityRisk_score]
  split_ifs at h ⊢ <;> simp_all

lemma assessPreviousUsageRisk_high_score (track : String)
    (h : (assessPreviousUsageRisk track).impact = Impact.high) :
    (assessPreviousUsageRisk track).score = 70 := by
  rw [assessPreviousUsageRisk_impact] at h
  rw [assessPreviousUsageRisk_score]
  split_ifs at h ⊢ <;> simp_all

/-! ### Projections of `calculateRiskScore` -/

lemma calculateRiskScore_factors (cy : ℤ) (track artist rh : String) (ry : ℤ) (label : String) :
    (calculateRiskScore cy track artist rh ry label).factors =
      [assessLabelRisk label, assessAgeRisk cy ry,
       assessPopularityRisk artist, assessPreviousUsageRisk track] := rfl

lemma calculateRiskScore_totalScore (cy : ℤ) (track artist rh : String) (ry : ℤ)
    (label : String) :
    (calculateRiskScore cy track artist rh ry label).totalScore =
      jsRound ((0 + (assessLabelRisk label).score * 3 + (assessAgeRisk cy ry).score * 2 +
          (assessPopularityRisk artist).score * 2.5 + (assessPreviousUsageRisk track).score * 2.5) /
        (0 + 3 + 2 + 2.5 + 2.5)) := rfl

lemma calculateRiskScore_riskLevel (cy : ℤ) (track artist rh : String) (ry : ℤ)
    (label : String) :
    (calculateRiskScore cy track artist rh ry label).riskLevel =
      (if (calculateRiskScore cy track artist rh ry label).totalScore ≥ 70 then RiskLevel.high
       else if (calculateRiskScore cy track artist rh ry label).totalScore ≥ 40 then
         RiskLevel.medium
       else RiskLevel.low) := rfl

lemma calculateRiskScore_potentialIssues (cy : ℤ) (track artist rh : String) (ry : ℤ)
    (label : String) :
    (calculateRiskScore cy track artist rh ry label).potentialIssues =
      generatePotentialIssues (calculateRiskScore cy track artist rh ry label).riskLevel
        (calculateRiskScore cy track artist rh ry label).factors := rfl

lemma calculateRiskScore_mitigationStrategies (cy : ℤ) (track artist rh : String) (ry : ℤ)
    (label : String) :
    (calculateRiskScore cy track artist rh ry label).mitigationStrategies =
      (calculateRiskScore cy track artist rh ry label).factors.filterMap
        (fun factor => factor.mitigation) := rfl

/-! ### Further helper lemmas -/

lemma getRiskLevelColor_level (q : ℚ) :
    (getRiskLevelColor q).level =
      (if q ≥ 70 then ("High") else if q ≥ 40 then ("Medium") else ("Low")) := by
  unfold getRiskLevelColor
  split_ifs <;> rfl

lemma totalScore_of_scores (cy : ℤ) (track artist rh : String) (ry : ℤ) (label : String)
    (s₁ s₂ s₃ s₄ : ℚ)
    (h₁ : (assessLabelRisk label).score = s₁) (h₂ : (assessAgeRisk cy ry).score = s₂)
    (h₃ : (assessPopularityRisk artist).score = s₃)
    (h₄ : (assessPreviousUsageRisk track).score = s₄) :
    (calculateRiskScore cy track artist rh ry label).totalScore =
      jsRound ((s₁ * 3 + s₂ * 2 + s₃ * 2.5 + s₄ * 2.5) / 10) := by
  rw [calculateRiskScore_totalScore, h₁, h₂, h₃, h₄]
  congr 1 <;> norm_num

lemma totalScore_ge_40_of_sum (cy : ℤ) (track artist rh : String) (ry : ℤ) (label : String)
    (h : (395 : ℚ) ≤ (assessLabelRisk label).score * 3 + (assessAgeRisk cy ry).score * 2 +
      (assessPopularityRisk artist).score * 2.5 + (assessPreviousUsageRisk track).score * 2.5) :
    40 ≤ (calculateRiskScore cy track artist rh ry label).totalScore := by
  rw [calculateRiskScore_totalScore]
  apply le_jsRound
  have hden : (0 + 3 + 2 + (2.5 : ℚ) + 2.5) = 10 := by norm_num
  rw [hden]
  have hq : (39.5 : ℚ) ≤ (0 + (assessLabelRisk label).score * 3 + (assessAgeRisk cy ry).score * 2 +
      (assessPopularityRisk artist).score * 2.5 +
      (assessPreviousUsageRisk track).score * 2.5) / 10 := by
    rw [le_div_iff₀ (by norm_num : (0 : ℚ) < 10)]
    linarith
  push_cast
  linarith

/-- If any of the four factors of a `calculateRiskScore` result carries impact
`high`, the weighted total is at least 40 (so the risk level cannot be `low`). -/
lemma totalScore_ge_40_of_high (cy : ℤ) (track artist rh : String) (ry : ℤ) (label : String)
    (h : ∃ f ∈ (calculateRiskScore cy track artist rh ry label).factors,
      f.impact = Impact.high) :
    40 ≤ (calculateRiskScore cy track artist rh ry label).totalScore := by
  obtain ⟨b₁l, b₁u⟩ := assessLabelRisk_score_bounds label
  obtain ⟨b₂l, b₂u⟩ := assessAgeRisk_score_bounds cy ry
  obtain ⟨b₃l, b₃u⟩ := assessPopularityRisk_score_bounds artist
  obtain ⟨b₄l, b₄u⟩ := assessPreviousUsageRisk_score_bounds track
  rw [calculateRiskScore_factors] at h
  obtain ⟨f, hf, hhigh⟩ := h
  apply totalScore_ge_40_of_sum
  simp only [List.mem_cons, List.not_mem_nil, or_false] at hf
  rcases hf with rfl | rfl | rfl | rfl
  · have := assessLabelRisk_high_score label hhigh
    linarith
  · have := assessAgeRisk_high_score cy ry hhigh
    linarith
  · have := assessPopularityRisk_high_score artist hhigh
    linarith
  · have := assessPreviousUsageRisk_high_score track hhigh
    linarith

/-- A `low` risk level forces every factor of the result to be non-`high`. -/
lemma no_high_factor_of_low (cy : ℤ) (track artist rh : String) (ry : ℤ) (label : String)
    (h : (calculateRiskScore cy track artist rh ry label).riskLevel = RiskLevel.low) :
    ((calculateRiskScore cy track artist rh ry label).factors.filter
      fun f => f.impact = Impact.high) = [] := by
  have ht : (calculateRiskScore cy track artist rh ry label).totalScore < 40 := by
    rw [calculateRiskScore_riskLevel] at h
    split_ifs at h with h₁ h₂
    all_goals omega
  rw [List.filter_eq_nil_iff]
  intro f hf hhigh
  have h40 := totalScore_ge_40_of_high cy track artist rh ry label
    ⟨f, hf, by simpa using hhigh⟩
  omega

/-! ### Claim theorems -/

/-- Claim C1: for every input (sourceTrack, originalArtist, rightsHolder,
releaseYear, label) — with the clock year explicit — the result of
`calculateRiskScore` satisfies
`totalScore = round((Σ factor.score · factor.weight) / (Σ factor.weight))`
over its four factors, and `totalScore` is an integer (by its type `ℤ`)
with `0 ≤ totalScore ≤ 100`. -/
theorem totalScore_weighted_round_and_bounds (cy : ℤ) (track artist rh : String) (ry : ℤ)
    (label : String) :
    (calculateRiskScore cy track artist rh ry label).totalScore =
      jsRound ((((calculateRiskScore cy track artist rh ry label).factors.map
          fun f => f.score * f.weight).sum) /
        (((calculateRiskScore cy track artist rh ry label).factors.map
          fun f => f.weight).sum)) ∧
    0 ≤ (calculateRiskScore cy track artist rh ry label).totalScore ∧
    (calculateRiskScore cy track artist rh ry label).totalScore ≤ 100 := by
  obtain ⟨b₁l, b₁u⟩ := assessLabelRisk_score_bounds label
  obtain ⟨b₂l, b₂u⟩ := assessAgeRisk_score_bounds cy ry
  obtain ⟨b₃l, b₃u⟩ := assessPopularityRisk_score_bounds artist
  obtain ⟨b₄l, b₄u⟩ := assessPreviousUsageRisk_score_bounds track
  have hden : (0 + 3 + 2 + (2.5 : ℚ) + 2.5) = 10 := by norm_num
  refine ⟨?_, ?_, ?_⟩
  · rw [calculateRiskScore_totalScore, calculateRiskScore_factors]
    simp only [List.map_cons, List.map_nil, List.sum_cons, List.sum_nil,
      assessLabelRisk_weight, assessAgeRisk_weight, assessPopularityRisk_weight,
      assessPreviousUsageRisk_weight]
    congr 1
    ring
  · rw [calculateRiskScore_totalScore]
    apply le_jsRound
    rw [hden]
    have hq : (0 : ℚ) ≤ (0 + (assessLabelRisk label).score * 3 +
        (assessAgeRisk cy ry).score * 2 + (assessPopularityRisk artist).score * 2.5 +
        (assessPreviousUsageRisk track).score * 2.5) / 10 := by
      apply div_nonneg _ (by norm_num)
      linarith
    push_cast
    linarith
  · rw [calculateRiskScore_totalScore]
    apply jsRound_le
    rw [hden]
    have hq : (0 + (assessLabelRisk label).score * 3 +
        (assessAgeRisk cy ry).score * 2 + (assessPopularityRisk artist).score * 2.5 +
        (assessPreviousUsageRisk track).score * 2.5) / 10 ≤ 77.75 := by
      rw [div_le_iff₀ (by norm_num : (0 : ℚ) < 10)]
      linarith
    push_cast
    linarith

/-- Claim C2: for every input, the result's `riskLevel` is `high` iff
`totalScore ≥ 70`, `medium` iff `40 ≤ totalScore < 70`, and `low` iff
`totalScore < 40`; and `getRiskLevelColor` in the same module classifies any
score with the same fixed 70/40 thresholds. -/
theorem riskLevel_threshold_consistency (cy : ℤ) (track artist rh : String) (ry : ℤ)
    (label : String) (q : ℚ) :
    ((calculateRiskScore cy track artist rh ry label).riskLevel = RiskLevel.high ↔
      70 ≤ (calculateRiskScore cy track artist rh ry label).totalScore) ∧
    ((calculateRiskScore cy track artist rh ry label).riskLevel = RiskLevel.medium ↔
      40 ≤ (calculateRiskScore cy track artist rh ry label).totalScore ∧
        (calculateRiskScore cy track artist rh ry label).totalScore < 70) ∧
    ((calculateRiskScore cy track artist rh ry label).riskLevel = RiskLevel.low ↔
      (calculateRiskScore cy track artist rh ry label).totalScore < 40) ∧
    ((getRiskLevelColor q).level = "High" ↔ 70 ≤ q) ∧
    ((getRiskLevelColor q).level = "Medium" ↔ 40 ≤ q ∧ q < 70) ∧
    ((getRiskLevelColor q).level = "Low" ↔ q < 40) := by
  rw [calculateRiskScore_riskLevel, getRiskLevelColor_level]
  refine ⟨?_, ?_, ?_, ?_, ?_, ?_⟩
  · split_ifs with h₁ h₂ <;> simp <;> omega
  · split_ifs with h₁ h₂ <;> simp <;> omega
  · split_ifs with h₁ h₂ <;> simp <;> omega
  all_goals split_ifs with g₁ g₂ <;> simp <;>
    first
      | linarith
      | (constructor <;> linarith)
      | (intro hc; linarith)

/-- Claim C3: with currentYear = 2024, the Funky Drummer scenario yields
label 80/high, age 30/low (age 54), popularity 85/high, usage 70/high, a
weighted total of 68.75 which rounds to `totalScore = 69`, and risk level
`medium`. -/
theorem scenarioA_funky_drummer (rh : String) :
    ((calculateRiskScore 2024 ("Funky Drummer - James Brown") ("James Brown") rh 1970
        ("Polydor Records")).factors.map fun f => (f.score, f.weight, f.impact)) =
      [(80, 3, Impact.high), (30, 2, Impact.low), (85, 2.5, Impact.high),
       (70, 2.5, Impact.high)] ∧
    ((80 * 3 + 30 * 2 + 85 * 2.5 + 70 * 2.5 : ℚ) / (3 + 2 + 2.5 + 2.5) = 68.75) ∧
    jsRound (68.75 : ℚ) = 69 ∧
    (calculateRiskScore 2024 ("Funky Drummer - James Brown") ("James Brown") rh 1970
      ("Polydor Records")).totalScore = 69 ∧
    (calculateRiskScore 2024 ("Funky Drummer - James Brown") ("James Brown") rh 1970
      ("Polydor Records")).riskLevel = RiskLevel.medium := by
  have hl : isMajorLabel ("Polydor Records") = true := by decide
  have hp : (veryPopularArtists.any fun x => jsIncludes ("James Brown") x) = true := by decide
  have hu : (frequentlySampledTracks.any
      fun x => jsIncludes ("Funky Drummer - James Brown") x) = true := by decide
  have s₁ : (assessLabelRisk ("Polydor Records")).score = 80 := by
    simp [assessLabelRisk_score, hl]
  have s₂ : (assessAgeRisk 2024 1970).score = 30 := by
    norm_num [assessAgeRisk_score]
  have s₃ : (assessPopularityRisk ("James Brown")).score = 85 := by
    simp [assessPopularityRisk_score, hp]
  have s₄ : (assessPreviousUsageRisk ("Funky Drummer - James Brown")).score = 70 := by
    simp [assessPreviousUsageRisk_score, hu]
  have ht : (calculateRiskScore 2024 ("Funky Drummer - James Brown") ("James Brown") rh 1970
      ("Polydor Records")).totalScore = 69 := by
    rw [totalScore_of_scores 2024 _ _ rh 1970 _ 80 30 85 70 s₁ s₂ s₃ s₄]
    apply jsRound_eq <;> norm_num
  refine ⟨?_, by norm_num, by apply jsRound_eq <;> norm_num, ht, ?_⟩
  · rw [calculateRiskScore_factors]
    norm_num [assessLabelRisk_score, assessLabelRisk_impact, assessLabelRisk_weight, hl,
      assessAgeRisk_score, assessAgeRisk_impact, assessAgeRisk_weight,
      assessPopularityRisk_score, assessPopularityRisk_impact, assessPopularityRisk_weight, hp,
      assessPreviousUsageRisk_score, assessPreviousUsageRisk_impact,
      assessPreviousUsageRisk_weight, hu]
  · rw [calculateRiskScore_riskLevel, ht]
    decide

/-- Claim C4: `assessAgeRisk` has weight 2 and selects score/impact by the
first satisfied age bracket, checked in descending order (70/50/30/10), with
everything below 10 — including negative ages from future release years —
falling to 75/high; plus the exact boundary values at currentYear = 2024. -/
theorem assessAgeRisk_bracket_correct (cy ry : ℤ) :
    (assessAgeRisk cy ry).weight = 2 ∧
    (70 ≤ cy - ry →
      (assessAgeRisk cy ry).score = 20 ∧ (assessAgeRisk cy ry).impact = Impact.low) ∧
    (50 ≤ cy - ry → cy - ry < 70 →
      (assessAgeRisk cy ry).score = 30 ∧ (assessAgeRisk cy ry).impact = Impact.low) ∧
    (30 ≤ cy - ry → cy - ry < 50 →
      (assessAgeRisk cy ry).score = 40 ∧ (assessAgeRisk cy ry).impact = Impact.medium) ∧
    (10 ≤ cy - ry → cy - ry < 30 →
      (assessAgeRisk cy ry).score = 60 ∧ (assessAgeRisk cy ry).impact = Impact.medium) ∧
    (cy - ry < 10 →
      (assessAgeRisk cy ry).score = 75 ∧ (assessAgeRisk cy ry).impact = Impact.high) ∧
    (assessAgeRisk 2024 1954).score = 20 ∧ (assessAgeRisk 2024 1955).score = 30 ∧
    (assessAgeRisk 2024 1974).score = 30 ∧ (assessAgeRisk 2024 1975).score = 40 ∧
    (assessAgeRisk 2024 1994).score = 40 ∧ (assessAgeRisk 2024 1995).score = 60 ∧
    (assessAgeRisk 2024 2014).score = 60 ∧ (assessAgeRisk 2024 2015).score = 75 := by
  refine ⟨rfl, ?_, ?_, ?_, ?_, ?_,
    by norm_num [assessAgeRisk_score], by norm_num [assessAgeRisk_score],
    by norm_num [assessAgeRisk_score], by norm_num [assessAgeRisk_score],
    by norm_num [assessAgeRisk_score], by norm_num [assessAgeRisk_score],
    by norm_num [assessAgeRisk_score], by norm_num [assessAgeRisk_score]⟩
  · intro h
    rw [assessAgeRisk_score, assessAgeRisk_impact]
    constructor <;> (split_ifs <;> first | rfl | (exfalso; omega))
  · intro h h'
    rw [assessAgeRisk_score, assessAgeRisk_impact]
    constructor <;> (split_ifs <;> first | rfl | (exfalso; omega))
  · intro h h'
    rw [assessAgeRisk_score, assessAgeRisk_impact]
    constructor <;> (split_ifs <;> first | rfl | (exfalso; omega))
  · intro h h'
    rw [assessAgeRisk_score, assessAgeRisk_impact]
    constructor <;> (split_ifs <;> first | rfl | (exfalso; omega))
  · intro h
    rw [assessAgeRisk_score, assessAgeRisk_impact]
    constructor <;> (split_ifs <;> first | rfl | (exfalso; omega))

/-- Witness for C4: at currentYear = releaseYear = 2024 the age is 0, which
falls into the default bracket (score 75, impact high). -/
theorem assessAgeRisk_bracket_correct_witness :
    (assessAgeRisk 2024 2024).score = 75 ∧ (assessAgeRisk 2024 2024).impact = Impact.high :=
  (assessAgeRisk_bracket_correct 2024 2024).2.2.2.2.2.1 (by decide)

/-- Counterexample to C5 as stated: the label Indie Records Co matches no major-label
fragment, yet the non-major branch of `assessLabelRisk` emits weight 3, not
the claimed weight 2 (the source sets `weight: 3` unconditionally). -/
theorem assessLabelRisk_weight_counterexample :
    isMajorLabel ("Indie Records Co") = false ∧
    (assessLabelRisk ("Indie Records Co")).weight = 3 ∧
    ¬((assessLabelRisk ("Indie Records Co")).weight = 2) := by
  refine ⟨by decide, rfl, ?_⟩
  rw [assessLabelRisk_weight]
  norm_num

/-- Claim C5 (amended): a label is major iff it contains one of the twelve
fixed fragments (case-sensitive substring); a major label yields score 80,
weight 3, impact high; any other label — the empty string included — yields
score 40, weight 3 (not 2: the source sets `weight: 3` on both branches),
impact medium; Universal Music Group gives 80/high, Indie Records Co gives
40/medium. -/
theorem assessLabelRisk_classification (label : String) :
    (isMajorLabel label = true ↔ ∃ frag ∈ majorLabels, jsIncludes label frag = true) ∧
    (isMajorLabel label = true →
      (assessLabelRisk label).score = 80 ∧ (assessLabelRisk label).weight = 3 ∧
        (assessLabelRisk label).impact = Impact.high) ∧
    (isMajorLabel label = false →
      (assessLabelRisk label).score = 40 ∧ (assessLabelRisk label).weight = 3 ∧
        (assessLabelRisk label).impact = Impact.medium) ∧
    (assessLabelRisk ("Universal Music Group")).score = 80 ∧
    (assessLabelRisk ("Universal Music Group")).impact = Impact.high ∧
    (assessLabelRisk ("Indie Records Co")).score = 40 ∧
    (assessLabelRisk ("Indie Records Co")).impact = Impact.medium := by
  have hU : isMajorLabel ("Universal Music Group") = true := by decide
  have hI : isMajorLabel ("Indie Records Co") = false := by decide
  refine ⟨?_, ?_, ?_, by simp [assessLabelRisk_score, hU], by simp [assessLabelRisk_impact, hU],
    by simp [assessLabelRisk_score, hI], by simp [assessLabelRisk_impact, hI]⟩
  · simp [isMajorLabel, List.any_eq_true]
  · intro h
    exact ⟨by simp [assessLabelRisk_score, h], rfl, by simp [assessLabelRisk_impact, h]⟩
  · intro h
    exact ⟨by simp [assessLabelRisk_score, h], rfl, by simp [assessLabelRisk_impact, h]⟩

/-- Witness for the amended C5 at the major label Universal Music Group. -/
theorem assessLabelRisk_classification_witness :
    (assessLabelRisk ("Universal Music Group")).score = 80 ∧
    (assessLabelRisk ("Universal Music Group")).weight = 3 ∧
    (assessLabelRisk ("Universal Music Group")).impact = Impact.high :=
  (assessLabelRisk_classification ("Universal Music Group")).2.1 (by decide)

/-- Scenario B evaluation: all-unknown input with age 0 gives factor
scores/weights (40,3), (75,2), (35,2.5), (30,2.5), total 43, level medium. -/
lemma scenarioB_eval (cy : ℤ) (track artist rh label : String) (ry : ℤ)
    (hl : isMajorLabel label = false)
    (ha₁ : (veryPopularArtists.any fun x => jsIncludes artist x) = false)
    (ha₂ : (popularArtists.any fun x => jsIncludes artist x) = false)
    (ht₁ : (frequentlySampledTracks.any fun x => jsIncludes track x) = false)
    (ht₂ : (moderatelySampledTracks.any fun x => jsIncludes track x) = false)
    (hy : ry = cy) :
    ((calculateRiskScore cy track artist rh ry label).factors.map
      fun f => (f.score, f.weight)) = [(40, 3), (75, 2), (35, 2.5), (30, 2.5)] ∧
    (calculateRiskScore cy track artist rh ry label).totalScore = 43 ∧
    (calculateRiskScore cy track artist rh ry label).riskLevel = RiskLevel.medium := by
  subst hy
  have s₁ : (assessLabelRisk label).score = 40 := by
    simp [assessLabelRisk_score, hl]
  have s₂ : (assessAgeRisk ry ry).score = 75 := by
    rw [assessAgeRisk_score]
    split_ifs <;> first | rfl | (exfalso; omega)
  have s₃ : (assessPopularityRisk artist).score = 35 := by
    simp [assessPopularityRisk_score, ha₁, ha₂]
  have s₄ : (assessPreviousUsageRisk track).score = 30 := by
    simp [assessPreviousUsageRisk_score, ht₁, ht₂]
  have ht : (calculateRiskScore ry track artist rh ry label).totalScore = 43 := by
    rw [totalScore_of_scores ry track artist rh ry label 40 75 35 30 s₁ s₂ s₃ s₄]
    apply jsRound_eq <;> norm_num
  refine ⟨?_, ht, ?_⟩
  · rw [calculateRiskScore_factors]
    simp [s₁, s₂, s₃, s₄, assessLabelRisk_weight, assessAgeRisk_weight,
      assessPopularityRisk_weight, assessPreviousUsageRisk_weight]
  · rw [calculateRiskScore_riskLevel, ht]
    decide

/-- Counterexample to C6 as stated: at an all-unknown input with age 0, the
label factor carries weight 3, so the weighted total is 432.5/10 = 43.25,
which rounds to 43 — not the claimed 44 from a weight-2 label factor. -/
theorem scenarioB_counterexample :
    isMajorLabel ("Indie Records Co") = false ∧
    (veryPopularArtists.any fun x => jsIncludes ("Unknown Artist") x) = false ∧
    (popularArtists.any fun x => jsIncludes ("Unknown Artist") x) = false ∧
    (frequentlySampledTracks.any fun x => jsIncludes ("Some Track") x) = false ∧
    (moderatelySampledTracks.any fun x => jsIncludes ("Some Track") x) = false ∧
    (calculateRiskScore 2024 ("Some Track") ("Unknown Artist") ("") 2024
      ("Indie Records Co")).totalScore = 43 ∧
    ¬((calculateRiskScore 2024 ("Some Track") ("Unknown Artist") ("") 2024
      ("Indie Records Co")).totalScore = 44) ∧
    ((calculateRiskScore 2024 ("Some Track") ("Unknown Artist") ("") 2024
      ("Indie Records Co")).factors.map fun f => f.weight) = [3, 2, 2.5, 2.5] ∧
    ¬(((calculateRiskScore 2024 ("Some Track") ("Unknown Artist") ("") 2024
      ("Indie Records Co")).factors.map fun f => f.weight) = [2, 2, 2.5, 2.5]) := by
  obtain ⟨-, h₄₃, -⟩ := scenarioB_eval 2024 ("Some Track") ("Unknown Artist") ("")
    ("Indie Records Co") 2024 (by decide) (by decide) (by decide) (by decide) (by decide) rfl
  have hw : ((calculateRiskScore 2024 ("Some Track") ("Unknown Artist") ("") 2024
      ("Indie Records Co")).factors.map fun f => f.weight) = [3, 2, 2.5, 2.5] := by
    rw [calculateRiskScore_factors]
    simp [assessLabelRisk_weight, assessAgeRisk_weight, assessPopularityRisk_weight,
      assessPreviousUsageRisk_weight]
  refine ⟨by decide, by decide, by decide, by decide, by decide, h₄₃, ?_, hw, ?_⟩
  · intro h
    rw [h₄₃] at h
    exact absurd h (by decide)
  · intro h
    rw [hw] at h
    simp at h

/-- Claim C6 (amended): for an unmatched label, artist and track and
releaseYear equal to the current year (age 0), the factors come out as
label 40 weight 3 (the unconditional label weight of the code, not weight 2),
age 75 weight 2, popularity 35 weight 2.5, usage 30 weight 2.5, so
totalScore = round(432.5/10 = 43.25) = 43 (not 44), and riskLevel is
"medium". -/
theorem scenarioB_unknown_everything (cy ry : ℤ) (track artist rh label : String)
    (hl : isMajorLabel label = false)
    (ha₁ : (veryPopularArtists.any fun x => jsIncludes artist x) = false)
    (ha₂ : (popularArtists.any fun x => jsIncludes artist x) = false)
    (ht₁ : (frequentlySampledTracks.any fun x => jsIncludes track x) = false)
    (ht₂ : (moderatelySampledTracks.any fun x => jsIncludes track x) = false)
    (hy : ry = cy) :
    ((calculateRiskScore cy track artist rh ry label).factors.map
      fun f => (f.score, f.weight)) = [(40, 3), (75, 2), (35, 2.5), (30, 2.5)] ∧
    (calculateRiskScore cy track artist rh ry label).totalScore = 43 ∧
    (calculateRiskScore cy track artist rh ry label).riskLevel = RiskLevel.medium :=
  scenarioB_eval cy track artist rh label ry hl ha₁ ha₂ ht₁ ht₂ hy

/-- Witness for the amended C6 at a concrete all-unknown input. -/
theorem scenarioB_unknown_everything_witness :
    ((calculateRiskScore 2024 ("Some Track") ("Unknown Artist") ("") 2024
      ("Indie Records Co")).factors.map fun f => (f.score, f.weight)) =
      [(40, 3), (75, 2), (35, 2.5), (30, 2.5)] ∧
    (calculateRiskScore 2024 ("Some Track") ("Unknown Artist") ("") 2024
      ("Indie Records Co")).totalScore = 43 ∧
    (calculateRiskScore 2024 ("Some Track") ("Unknown Artist") ("") 2024
      ("Indie Records Co")).riskLevel = RiskLevel.medium :=
  scenarioB_unknown_everything 2024 2024 ("Some Track") ("Unknown Artist") ("")
    ("Indie Records Co") (by decide) (by decide) (by decide) (by decide) (by decide) rfl

/-- Claim C7: every result has
`potentialIssues.length = 3 + #(factors with impact high)` (in the `low`
branch no high-impact factor can exist, because any high-impact factor
forces the weighted total to at least 40), and
`mitigationStrategies.length = #(factors with a mitigation) = 4`, since every
branch of every assessor sets a mitigation. -/
theorem narrative_lengths (cy : ℤ) (track artist rh : String) (ry : ℤ) (label : String) :
    (calculateRiskScore cy track artist rh ry label).potentialIssues.length =
      3 + ((calculateRiskScore cy track artist rh ry label).factors.filter
        fun f => f.impact = Impact.high).length ∧
    (calculateRiskScore cy track artist rh ry label).mitigationStrategies.length =
      ((calculateRiskScore cy track artist rh ry label).factors.filter
        fun f => f.mitigation.isSome).length ∧
    (calculateRiskScore cy track artist rh ry label).mitigationStrategies.length = 4 := by
  obtain ⟨m₁, hm₁⟩ := Option.isSome_iff_exists.mp (assessLabelRisk_mitigation_isSome label)
  obtain ⟨m₂, hm₂⟩ := Option.isSome_iff_exists.mp (assessAgeRisk_mitigation_isSome cy ry)
  obtain ⟨m₃, hm₃⟩ := Option.isSome_iff_exists.mp (assessPopularityRisk_mitigation_isSome artist)
  obtain ⟨m₄, hm₄⟩ :=
    Option.isSome_iff_exists.mp (assessPreviousUsageRisk_mitigation_isSome track)
  have hm : (calculateRiskScore cy track artist rh ry label).mitigationStrategies.length = 4 := by
    rw [calculateRiskScore_mitigationStrategies, calculateRiskScore_factors]
    simp [List.filterMap_cons, hm₁, hm₂, hm₃, hm₄]
  have hf : ((calculateRiskScore cy track artist rh ry label).factors.filter
      fun f => f.mitigation.isSome).length = 4 := by
    rw [calculateRiskScore_factors]
    simp [List.filter_cons, assessLabelRisk_mitigation_isSome, assessAgeRisk_mitigation_isSome,
      assessPopularityRisk_mitigation_isSome, assessPreviousUsageRisk_mitigation_isSome]
  refine ⟨?_, by rw [hm, hf], hm⟩
  rw [calculateRiskScore_potentialIssues]
  rcases hlvl : (calculateRiskScore cy track artist rh ry label).riskLevel with _ | _ | _
  · simp [generatePotentialIssues]
    omega
  · simp [generatePotentialIssues]
    omega
  · have hnil := no_high_factor_of_low cy track artist rh ry label hlvl
    simp [generatePotentialIssues, hnil]

/-- Counterexample to C8 as stated: with the five arguments held fixed, the
result still changes when the clock year read by `assessAgeRisk` moves from
2024 to 2025 (the 2015 release crosses the age-10 bracket), so the function
does depend on something outside its arguments. -/
theorem clock_dependence_counterexample :
    (calculateRiskScore 2024 ("Some Track") ("Unknown Artist") ("") 2015
      ("Indie Records Co")).totalScore = 43 ∧
    (calculateRiskScore 2025 ("Some Track") ("Unknown Artist") ("") 2015
      ("Indie Records Co")).totalScore = 40 ∧
    calculateRiskScore 2024 ("Some Track") ("Unknown Artist") ("") 2015 ("Indie Records Co") ≠
      calculateRiskScore 2025 ("Some Track") ("Unknown Artist") ("") 2015
        ("Indie Records Co") := by
  have hl : isMajorLabel ("Indie Records Co") = false := by decide
  have ha₁ : (veryPopularArtists.any fun x => jsIncludes ("Unknown Artist") x) = false := by
    decide
  have ha₂ : (popularArtists.any fun x => jsIncludes ("Unknown Artist") x) = false := by decide
  have ht₁ : (frequentlySampledTracks.any fun x => jsIncludes ("Some Track") x) = false := by
    decide
  have ht₂ : (moderatelySampledTracks.any fun x => jsIncludes ("Some Track") x) = false := by
    decide
  have s₁ : (assessLabelRisk ("Indie Records Co")).score = 40 := by
    simp [assessLabelRisk_score, hl]
  have s₃ : (assessPopularityRisk ("Unknown Artist")).score = 35 := by
    simp [assessPopularityRisk_score, ha₁, ha₂]
  have s₄ : (assessPreviousUsageRisk ("Some Track")).score = 30 := by
    simp [assessPreviousUsageRisk_score, ht₁, ht₂]
  have s₂a : (assessAgeRisk 2024 2015).score = 75 := by norm_num [assessAgeRisk_score]
  have s₂b : (assessAgeRisk 2025 2015).score = 60 := by norm_num [assessAgeRisk_score]
  have hta : (calculateRiskScore 2024 ("Some Track") ("Unknown Artist") ("") 2015
      ("Indie Records Co")).totalScore = 43 := by
    rw [totalScore_of_scores 2024 ("Some Track") ("Unknown Artist") ("") 2015
      ("Indie Records Co") 40 75 35 30 s₁ s₂a s₃ s₄]
    apply jsRound_eq <;> norm_num
  have htb : (calculateRiskScore 2025 ("Some Track") ("Unknown Artist") ("") 2015
      ("Indie Records Co")).totalScore = 40 := by
    rw [totalScore_of_scores 2025 ("Some Track") ("Unknown Artist") ("") 2015
      ("Indie Records Co") 40 60 35 30 s₁ s₂b s₃ s₄]
    apply jsRound_eq <;> norm_num
  refine ⟨hta, htb, fun h => ?_⟩
  have hts := congrArg RiskAssessmentResult.totalScore h
  rw [hta, htb] at hts
  exact absurd hts (by decide)

/-- Claim C8 (amended): the result is a pure function of the clock year and
the five arguments, and depends on the clock only through
`age = currentYear - releaseYear`; two calls agreeing on the four used
arguments and on that difference return identical results.  (As stated the
claim is false: across a change of clock year the same five arguments can
produce different results — see the counterexample.) -/
theorem deterministic_given_clock (cy₁ cy₂ ry₁ ry₂ : ℤ) (track artist rh label : String)
    (h : cy₁ - ry₁ = cy₂ - ry₂) :
    calculateRiskScore cy₁ track artist rh ry₁ label =
      calculateRiskScore cy₂ track artist rh ry₂ label := by
  have hage : assessAgeRisk cy₁ ry₁ = assessAgeRisk cy₂ ry₂ := by
    unfold assessAgeRisk
    rw [h]
  unfold calculateRiskScore
  rw [hage]

/-- Witness for the amended C8: clock 2024 with release 2015 agrees with
clock 2025 with release 2016 (both give age 9). -/
theorem deterministic_given_clock_witness :
    calculateRiskScore 2024 ("Some Track") ("Unknown Artist") ("") 2015 ("Indie Records Co") =
      calculateRiskScore 2025 ("Some Track") ("Unknown Artist") ("") 2016
        ("Indie Records Co") :=
  deterministic_given_clock 2024 2025 2015 2016 ("Some Track") ("Unknown Artist") ("")
    ("Indie Records Co") (by decide)

/-- Claim C9: `rightsHolder` is dead — two calls differing only in it return
identical results (in every field, since the whole records are equal). -/
theorem rightsHolder_dead_parameter (cy : ℤ) (track artist rh₁ rh₂ : String) (ry : ℤ)
    (label : String) :
    calculateRiskScore cy track artist rh₁ ry label =
      calculateRiskScore cy track artist rh₂ ry label := rfl

/-- Counterexample to C10 as stated: currentYear 2024, y₁ = 1950 < y₂ = 2020
fall in different brackets, but the age score for y₁ is 20, strictly below
the 75 for y₂ — not `≥` as claimed. -/
theorem age_monotonicity_counterexample :
    (1950 : ℤ) < 2020 ∧
    ageBracket (2024 - 1950) ≠ ageBracket (2024 - 2020) ∧
    (assessAgeRisk 2024 1950).score = 20 ∧ (assessAgeRisk 2024 2020).score = 75 ∧
    ¬((assessAgeRisk 2024 1950).score ≥ (assessAgeRisk 2024 2020).score) := by
  refine ⟨by decide, by decide, by norm_num [assessAgeRisk_score],
    by norm_num [assessAgeRisk_score], ?_⟩
  rw [ge_iff_le, not_le]
  norm_num [assessAgeRisk_score]

/-- Claim C10 (amended): for release years y₁ < y₂ under the same clock year,
whenever the two ages fall in different brackets of the chain in `assessAgeRisk`,
the age score for y₁ is ≤ (not ≥) the score for y₂ — older release, lower or
equal risk contribution, as the parenthetical of the spec itself says. -/
theorem age_monotonicity (cy y₁ y₂ : ℤ) (h : y₁ < y₂)
    (hb : ageBracket (cy - y₁) ≠ ageBracket (cy - y₂)) :
    (assessAgeRisk cy y₁).score ≤ (assessAgeRisk cy y₂).score := by
  rw [assessAgeRisk_score, assessAgeRisk_score]
  unfold ageBracket at hb
  split_ifs at hb ⊢ <;> first | (exfalso; omega) | norm_num

/-- Witness for the amended C10 at currentYear 2024, y₁ = 1950, y₂ = 2020. -/
theorem age_monotonicity_witness :
    (assessAgeRisk 2024 1950).score ≤ (assessAgeRisk 2024 2020).score :=
  age_monotonicity 2024 1950 2020 (by decide) (by decide)

end SampleFlow
